import Mathlib

/-!
Shallow embedding of snowboard_dashboard.py (ski resort dashboard).
Strings are modelled through their character lists; machine floats of the
source are modelled as exact rationals; each fallible HTTP exchange is
modelled by an explicit optional response argument, where none stands for a
raised exception or a missing field.
-/

/-- Test whether the first list is an initial segment of the second. -/
def startsWithL : List Char → List Char → Bool
  | [], _ => true
  | _ :: _, [] => false
  | p :: ps, c :: cs => p == c && startsWithL ps cs

/-- Contiguous-substring test on character lists, the model of the Python
membership test pat in s on strings. -/
def containsL (pat : List Char) : List Char → Bool
  | [] => pat.isEmpty
  | c :: cs => startsWithL pat (c :: cs) || containsL pat cs

/-- Python substring test: pat in s. -/
def strContains (s pat : String) : Bool := containsL pat.toList s.toList

/-- Python str.lower, adequate for the ASCII names the dashboard handles. -/
def pyLower (s : String) : String := String.mk (s.toList.map Char.toLower)

/-- Python s.replace(c, "") for a one-character pattern: drop every
occurrence of the character. -/
def removeCharStr (c : Char) (s : String) : String :=
  String.mk (s.toList.filter (fun a => !(a == c)))

/-- Python s.replace(c, r) for one-character pattern and replacement. -/
def replaceCharStr (c r : Char) (s : String) : String :=
  String.mk (s.toList.map (fun a => if a == c then r else a))

/-- Python s.rstrip(slash): drop trailing slash characters. -/
def rstripSlash (s : String) : String :=
  String.mk ((s.toList.reverse.dropWhile (fun a => a == '/')).reverse)

/-- Helper for pyTitle: the Boolean records whether the previous character
was alphabetic. -/
def pyTitleAux : Bool → List Char → List Char
  | _, [] => []
  | prevAlpha, c :: cs =>
    (if prevAlpha then c.toLower else c.toUpper) :: pyTitleAux c.isAlpha cs

/-- Python str.title: uppercase each character that follows a non-letter,
lowercase the rest. -/
def pyTitle (s : String) : String := String.mk (pyTitleAux false s.toList)

/-- Python round to nearest integer with ties to even (banker rounding),
on exact rational values. -/
def roundHalfEven (x : ℚ) : ℤ :=
  let f : ℤ := ⌊x⌋
  let r : ℚ := x - f
  if r < 1/2 then f
  else if 1/2 < r then f + 1
  else if f % 2 = 0 then f else f + 1

/-- Python round(x, 1): round to one decimal place. -/
def round1 (x : ℚ) : ℚ := (roundHalfEven (10 * x) : ℚ) / 10

/-! ## POI Finder: find_ski_resorts_osm and get_tahoe_fallback_resorts -/

/-- One element of the Overpass JSON answer, with the fields the dashboard
reads: tags.name (empty string when the tag is missing), tags.amenity,
presence of a leisure tag, the resolved coordinates (from lat/lon or from
center; none when both are missing), website and phone. -/
structure OSMElement where
  name : String
  amenity : Option String
  hasLeisure : Bool
  coords : Option (ℚ × ℚ)
  website : String
  phone : String
deriving DecidableEq

/-- The resort record built by the POI finder. -/
structure Resort where
  name : String
  lat : ℚ
  lon : ℚ
  distance : ℚ
  website : String
  phone : String
  source : String
deriving DecidableEq

/-- The non-resort keywords filtered out of OSM names. -/
def exclude_keywords : List String :=
  ["trail", "road", "loop", "path", "route", "fire road", "bike", "hike",
   "parking", "lodge parking", "base", "trailhead", "campground", "picnic",
   "restroom", "store", "rental shop", "school building", "cafeteria"]

/-- Abstract great-circle distance in miles between two coordinate pairs;
it stands for the external geodesic(a, b).miles call. -/
abbrev DistFn := ℚ × ℚ → ℚ × ℚ → ℚ

/-- The element loop of find_ski_resorts_osm: walk the Overpass elements in
order, keeping the seen-name set, and collect resort records for elements
that pass the name, keyword, amenity, coordinate and distance checks. A
name enters seen exactly when its record is appended. -/
def collectResorts (dist : DistFn) (lat lon radius_miles : ℚ) :
    List OSMElement → List String → List Resort
  | [], _ => []
  | e :: rest, seen =>
    if e.name == "" || seen.contains e.name then
      collectResorts dist lat lon radius_miles rest seen
    else if exclude_keywords.any (fun k => strContains (pyLower e.name) k) then
      collectResorts dist lat lon radius_miles rest seen
    else if (e.amenity == some "ski_school" || e.amenity == some "ski_rental")
        && !e.hasLeisure then
      collectResorts dist lat lon radius_miles rest seen
    else
      match e.coords with
      | none => collectResorts dist lat lon radius_miles rest seen
      | some c =>
        let d := dist (lat, lon) c
        if d ≤ radius_miles then
          { name := e.name, lat := c.1, lon := c.2, distance := round1 d,
            website := e.website, phone := e.phone, source := "OpenStreetMap" } ::
          collectResorts dist lat lon radius_miles rest (e.name :: seen)
        else
          collectResorts dist lat lon radius_miles rest seen

/-- Insert a resort into a distance-sorted list after every entry whose
distance is less than or equal; auxiliary to sortByDistance. -/
def insertByDistance (x : Resort) : List Resort → List Resort
  | [] => [x]
  | y :: ys => if y.distance ≤ x.distance then y :: insertByDistance x ys else x :: y :: ys

/-- Python sorted(resorts, key distance): stable ascending sort by the
stored distance field. A stable sort is determined uniquely by the key
order and the original order of ties, so stable insertion sort gives the
same list as the sort used by the interpreter. -/
def sortByDistance (rs : List Resort) : List Resort :=
  rs.foldl (fun acc x => insertByDistance x acc) []

/-- One entry of the hardcoded Tahoe table. -/
structure KnownResort where
  name : String
  lat : ℚ
  lon : ℚ
  website : String
deriving DecidableEq

/-- The static fallback table of known Lake Tahoe resorts. -/
def tahoe_known_resorts : List KnownResort :=
  [⟨"Palisades Tahoe", 39.1970, -120.2356, "https://www.palisadestahoe.com"⟩,
   ⟨"Heavenly", 38.9352, -119.9393, "https://www.skiheavenly.com"⟩,
   ⟨"Northstar California", 39.2734, -120.1217, "https://www.northstarcalifornia.com"⟩,
   ⟨"Kirkwood", 38.6836, -120.0647, "https://www.kirkwood.com"⟩,
   ⟨"Sierra-at-Tahoe", 38.7993, -120.0803, "https://www.sierraattahoe.com"⟩,
   ⟨"Sugar Bowl", 39.3018, -120.3391, "https://www.sugarbowl.com"⟩,
   ⟨"Homewood Mountain Resort", 39.0833, -120.1667, "https://www.skihomewood.com"⟩,
   ⟨"Mt. Rose Ski Tahoe", 39.3142, -119.8870, "https://www.skirose.com"⟩,
   ⟨"Diamond Peak", 39.2517, -119.9194, "https://www.diamondpeak.com"⟩,
   ⟨"Boreal Mountain Resort", 39.3325, -120.3475, "https://www.rideboreal.com"⟩,
   ⟨"Soda Springs", 39.3197, -120.3733, "https://www.skisodasprings.com"⟩,
   ⟨"Tahoe Donner", 39.3175, -120.2369, "https://www.tahoedonner.com"⟩]

/-- get_tahoe_fallback_resorts: distance-filter the static table and sort
ascending by the stored distance. -/
def get_tahoe_fallback_resorts (dist : DistFn) (lat lon radius_miles : ℚ) :
    List Resort :=
  sortByDistance (tahoe_known_resorts.filterMap (fun r =>
    let d := dist (lat, lon) (r.lat, r.lon)
    if d ≤ radius_miles then
      some { name := r.name, lat := r.lat, lon := r.lon, distance := round1 d,
             website := r.website, phone := "", source := "Fallback Database" }
    else none))

/-- The Overpass HTTP answer: status code and decoded elements. -/
structure OverpassResponse where
  statusCode : ℕ
  elements : List OSMElement
deriving DecidableEq

/-- find_ski_resorts_osm. The HTTP exchange is the optional response
argument (none models a raised exception). sessionLocation is the value of
the hidden st.session_state read of location_input, defaulting to the empty
string. On a raised exception, or on an empty collected list, the Tahoe
fallback table is substituted whenever the session location contains tahoe. -/
def find_ski_resorts_osm (dist : DistFn) (sessionLocation : String)
    (response : Option OverpassResponse) (lat lon radius_miles : ℚ) :
    List Resort :=
  match response with
  | none =>
    if strContains (pyLower sessionLocation) "tahoe" then
      get_tahoe_fallback_resorts dist lat lon radius_miles
    else []
  | some resp =>
    let resorts :=
      if resp.statusCode == 200 then
        collectResorts dist lat lon radius_miles resp.elements []
      else []
    if !resorts.isEmpty then sortByDistance resorts
    else if strContains (pyLower sessionLocation) "tahoe" then
      get_tahoe_fallback_resorts dist lat lon radius_miles
    else []

/-! ## Booking URL Generator: generate_booking_urls -/

/-- A Python date value as the dashboard uses it: ord is toordinal, so the
subtraction (b - a).days equals b.ord - a.ord, and ymd is the
strftime %Y-%m-%d rendering of the same date. -/
structure PyDate where
  ord : ℤ
  ymd : String
deriving DecidableEq

/-- The booking_info dictionary returned by generate_booking_urls. -/
structure BookingInfo where
  lift_ticket_link : String
  lift_ticket_display : String
  lesson_link : String
  lesson_display : String
  rental_link : String
  rental_display : String
  full_package_link : String
  estimated_total : String
  trip_days : ℤ
deriving DecidableEq

/-- resort_name.lower().replace(space, empty).replace(dash, empty). -/
def resortSlug (name : String) : String :=
  removeCharStr '-' (removeCharStr ' ' (pyLower name))

/-- The ordered known_patterns table of lift-ticket URL templates, with the
two formatted dates substituted. Insertion order of the Python dict is the
list order. -/
def known_patterns (d1 d2 : String) : List (String × String) :=
  [("northstar", "https://www.northstarcalifornia.com/plan-your-trip/lift-access/tickets.aspx?startDate=" ++ d1 ++ "&endDate=" ++ d2),
   ("heavenly", "https://www.skiheavenly.com/plan-your-trip/lift-access/tickets.aspx?startDate=" ++ d1 ++ "&endDate=" ++ d2),
   ("kirkwood", "https://www.kirkwood.com/plan-your-trip/lift-access/tickets.aspx?startDate=" ++ d1 ++ "&endDate=" ++ d2),
   ("vail", "https://www.vail.com/plan-your-trip/lift-access/tickets.aspx?startDate=" ++ d1 ++ "&endDate=" ++ d2),
   ("breckenridge", "https://www.breckenridge.com/plan-your-trip/lift-access/tickets.aspx?startDate=" ++ d1 ++ "&endDate=" ++ d2),
   ("keystone", "https://www.keystoneresort.com/plan-your-trip/lift-access/tickets.aspx?startDate=" ++ d1 ++ "&endDate=" ++ d2),
   ("parkcity", "https://www.parkcitymountain.com/plan-your-trip/lift-access/tickets.aspx?startDate=" ++ d1 ++ "&endDate=" ++ d2),
   ("palisades", "https://www.palisadestahoe.com/tickets-passes?arrival=" ++ d1 ++ "&departure=" ++ d2),
   ("sugarbowl", "https://www.sugarbowl.com/plan/tickets?date=" ++ d1),
   ("squaw", "https://www.palisadestahoe.com/tickets-passes?arrival=" ++ d1 ++ "&departure=" ++ d2),
   ("mammoth", "https://www.mammothmountain.com/tickets-and-passes/lift-tickets?startDate=" ++ d1),
   ("deervalley", "https://www.deervalley.com/plan/tickets-passes?arrival=" ++ d1 ++ "&departure=" ++ d2),
   ("steamboat", "https://www.steamboat.com/plan-your-trip/lift-access/tickets?arrival=" ++ d1 ++ "&departure=" ++ d2),
   ("sierra", "https://www.sierraattahoe.com/lift-tickets/?date=" ++ d1),
   ("alta", "https://www.alta.com/tickets?date=" ++ d1),
   ("snowbird", "https://www.snowbird.com/lift-tickets/?arrivaldate=" ++ d1 ++ "&departuredate=" ++ d2),
   ("jacksonhole", "https://www.jacksonhole.com/lift-tickets-passes.html?arrival=" ++ d1 ++ "&departure=" ++ d2),
   ("jackson", "https://www.jacksonhole.com/lift-tickets-passes.html?arrival=" ++ d1 ++ "&departure=" ++ d2),
   ("aspen", "https://www.aspensnowmass.com/tickets-passes/lift-tickets?startDate=" ++ d1 ++ "&endDate=" ++ d2),
   ("stowe", "https://www.stowe.com/plan-your-trip/lift-access/tickets?arrival=" ++ d1),
   ("killington", "https://www.killington.com/plan-your-trip/tickets-and-passes?arrival=" ++ d1)]

/-- The lesson_patterns table, with the start date substituted. -/
def lesson_patterns (d1 : String) : List (String × String) :=
  [("northstar", "https://www.northstarcalifornia.com/plan-your-trip/ski-and-ride-school.aspx?startDate=" ++ d1),
   ("heavenly", "https://www.skiheavenly.com/plan-your-trip/ski-and-ride-school.aspx?startDate=" ++ d1),
   ("palisades", "https://www.palisadestahoe.com/ski-ride-school?date=" ++ d1),
   ("vail", "https://www.vail.com/plan-your-trip/ski-and-ride-school.aspx?startDate=" ++ d1),
   ("breckenridge", "https://www.breckenridge.com/plan-your-trip/ski-and-ride-school.aspx?startDate=" ++ d1)]

/-- The rental_patterns table, with the start date substituted. -/
def rental_patterns (d1 : String) : List (String × String) :=
  [("northstar", "https://www.northstarcalifornia.com/plan-your-trip/rentals-and-demos.aspx?startDate=" ++ d1),
   ("heavenly", "https://www.skiheavenly.com/plan-your-trip/rentals-and-demos.aspx?startDate=" ++ d1),
   ("palisades", "https://www.palisadestahoe.com/rentals?date=" ++ d1),
   ("vail", "https://www.vail.com/plan-your-trip/rentals-and-demos.aspx?startDate=" ++ d1)]

/-- First entry of the ordered table whose key is a substring of the slug:
the for-loop with break over the pattern dict. -/
def firstMatch (slug : String) : List (String × String) → Option String
  | [] => none
  | (k, u) :: rest => if strContains slug k then some u else firstMatch slug rest

/-- The lift-ticket three-tier selection: known pattern, else the resort
website with the standard path appended, else a web search. -/
def lift_ticket_url (resort_name resort_website d1 d2 : String) : String :=
  match firstMatch (resortSlug resort_name) (known_patterns d1 d2) with
  | some u => u
  | none =>
    if resort_website ≠ "" then
      rstripSlash resort_website ++ "/plan-your-trip/lift-access/tickets?startDate="
        ++ d1 ++ "&endDate=" ++ d2
    else
      "https://www.google.com/search?q=" ++ replaceCharStr ' ' '+' resort_name
        ++ "+lift+tickets+" ++ d1 ++ "+to+" ++ d2

/-- The lesson three-tier selection. -/
def lesson_url (resort_name resort_website d1 : String) : String :=
  match firstMatch (resortSlug resort_name) (lesson_patterns d1) with
  | some u => u
  | none =>
    if resort_website ≠ "" then rstripSlash resort_website ++ "/ski-school?date=" ++ d1
    else "https://www.google.com/search?q=" ++ replaceCharStr ' ' '+' resort_name
      ++ "+ski+lessons+" ++ d1

/-- The rental three-tier selection. -/
def rental_url (resort_name resort_website d1 : String) : String :=
  match firstMatch (resortSlug resort_name) (rental_patterns d1) with
  | some u => u
  | none =>
    if resort_website ≠ "" then rstripSlash resort_website ++ "/rentals?date=" ++ d1
    else "https://www.google.com/search?q=" ++ replaceCharStr ' ' '+' resort_name
      ++ "+ski+rental+" ++ d1

/-- generate_booking_urls: pure assembly of the booking_info record. -/
def generate_booking_urls (resort_name resort_website : String)
    (date_from date_to : PyDate) (need_lesson need_rental : Bool) : BookingInfo :=
  let d1 := date_from.ymd
  let d2 := date_to.ymd
  let trip_days : ℤ := (date_to.ord - date_from.ord) + 1
  let matched := firstMatch (resortSlug resort_name) (known_patterns d1 d2)
  let lift_display :=
    match matched with
    | some _ => "🎫 Book Lift Tickets"
    | none => if resort_website ≠ "" then "🎫 Book Lift Tickets" else "🔍 Search Lift Tickets"
  let package_query :=
    replaceCharStr ' ' '+' resort_name ++ "+ski+package"
      ++ (if need_lesson then "+lessons" else "")
      ++ (if need_rental then "+rentals" else "")
      ++ "+" ++ d1 ++ "+to+" ++ d2
  let base_ticket_price : ℤ := 150
  let lesson_price : ℤ := if need_lesson then 200 else 0
  let rental_price : ℤ := if need_rental then 50 else 0
  let daily_cost := base_ticket_price + rental_price
  let total_cost := daily_cost * trip_days + lesson_price
  { lift_ticket_link := lift_ticket_url resort_name resort_website d1 d2,
    lift_ticket_display := lift_display,
    lesson_link := if need_lesson then lesson_url resort_name resort_website d1 else "",
    lesson_display := if need_lesson then "🎿 Book Lessons" else "",
    rental_link := if need_rental then rental_url resort_name resort_website d1 else "",
    rental_display := if need_rental then "⛷️ Book Rentals" else "",
    full_package_link := "https://www.google.com/search?q=" ++ package_query,
    estimated_total := "~$" ++ toString total_cost,
    trip_days := trip_days }

/-! ## Sentiment Scorer: get_reddit_sentiment -/

/-- The ordered reputation_map of get_reddit_sentiment, insertion order
preserved. -/
def reputation_map : List (String × ℚ) :=
  [("vail", 0.25), ("aspen", 0.28), ("deer valley", 0.30), ("jackson hole", 0.27),
   ("park city", 0.22), ("steamboat", 0.23), ("telluride", 0.28),
   ("heavenly", 0.20), ("northstar", 0.18), ("palisades", 0.25), ("squaw", 0.25),
   ("alpine meadows", 0.20), ("kirkwood", 0.22), ("sierra", 0.15), ("sierra-at-tahoe", 0.15),
   ("sugar bowl", 0.18), ("homewood", 0.16), ("mt. rose", 0.17), ("mt rose", 0.17),
   ("diamond peak", 0.14), ("boreal", 0.10), ("soda springs", 0.08), ("tahoe donner", 0.10),
   ("breckenridge", 0.23), ("keystone", 0.18), ("copper", 0.20), ("winter park", 0.19),
   ("loveland", 0.16), ("arapahoe", 0.15), ("a-basin", 0.18), ("eldora", 0.12),
   ("crested butte", 0.21), ("monarch", 0.14), ("wolf creek", 0.19),
   ("alta", 0.28), ("snowbird", 0.27), ("brighton", 0.19), ("solitude", 0.20),
   ("powder mountain", 0.22), ("snowbasin", 0.21), ("sundance", 0.15),
   ("stowe", 0.19), ("killington", 0.16), ("sugarbush", 0.17), ("sunday river", 0.15),
   ("sugarloaf", 0.18), ("jay peak", 0.20), ("whiteface", 0.14), ("okemo", 0.13),
   ("stratton", 0.14), ("mount snow", 0.12), ("loon", 0.13), ("bretton woods", 0.14),
   ("crystal", 0.20), ("mt baker", 0.24), ("stevens", 0.16), ("whistler", 0.28),
   ("snoqualmie", 0.12), ("mt hood meadows", 0.18), ("timberline", 0.17),
   ("mission ridge", 0.15), ("mt bachelor", 0.21),
   ("mammoth", 0.24), ("mountain high", 0.08), ("bear mountain", 0.09),
   ("june mountain", 0.16), ("snow summit", 0.10), ("china peak", 0.12),
   ("echo mountain", 0.10), ("ski cooper", 0.12), ("purgatory", 0.14),
   ("taos", 0.22), ("red river", 0.13), ("angel fire", 0.11)]

/-- Keywords granting the 0.10 fallback score. -/
def resort_words1 : List String := ["resort", "mountain", "ski area"]

/-- Keywords granting the 0.12 fallback score. -/
def resort_words2 : List String := ["tahoe", "alpine", "peak", "valley"]

/-- First reputation entry whose key is a substring of the lowered name. -/
def firstRepMatch (lower : String) : List (String × ℚ) → Option (String × ℚ)
  | [] => none
  | (k, s) :: rest => if strContains lower k then some (k, s) else firstRepMatch lower rest

/-- The quadruple returned by get_reddit_sentiment. -/
structure SentimentResult where
  score : ℚ
  pos_pct : ℤ
  count : ℕ
  debug : String
deriving DecidableEq

/-- get_reddit_sentiment. siaAvailable models whether the module-level
SentimentIntensityAnalyzer construction succeeded. -/
def get_reddit_sentiment (siaAvailable : Bool) (resort_name : String) :
    SentimentResult :=
  if !siaAvailable then ⟨0, 50, 0, "VADER not available"⟩
  else
    let resort_lower := pyLower resort_name
    let m := firstRepMatch resort_lower reputation_map
    let score0 : ℚ := match m with | some (_, s) => s | none => 0
    let score : ℚ :=
      if score0 = 0 then
        if resort_words1.any (fun w => strContains resort_lower w) then 0.10
        else if resort_words2.any (fun w => strContains resort_lower w) then 0.12
        else 0
      else score0
    let debug :=
      match m with
      | some (k, _) => "✓ Reputation score for " ++ pyTitle k
      | none => "✓ General resort score"
    let raw := 50 + score * 150
    let clamped := max 0 (min 100 raw)
    ⟨score, roundHalfEven clamped, 0, debug⟩

/-! ## Weather Lookup: get_weather_forecast -/

/-- One forecast period with the two fields the dashboard reads. -/
structure WPeriod where
  temperature : ℤ
  shortForecast : String
deriving DecidableEq

/-- The two upstream weather calls as oracles: pointForecast is the
properties.forecast URL resolved from the point request (none models a
network error or missing field), forecastPeriods the properties.periods
list of the forecast request. -/
structure WeatherEnv where
  pointForecast : ℚ × ℚ → Option String
  forecastPeriods : String → Option (List WPeriod)

/-- get_weather_forecast: first period rendering, or the unavailable marker
when any step fails or the period list is empty. -/
def get_weather_forecast (env : WeatherEnv) (lat lon : ℚ) : String :=
  match env.pointForecast (lat, lon) with
  | none => "Weather unavailable"
  | some url =>
    match env.forecastPeriods url with
    | none => "Weather unavailable"
    | some [] => "Weather unavailable"
    | some (p :: _) => toString p.temperature ++ "°F – " ++ p.shortForecast

/-! ## Presentation gating for the date range -/

/-- trip_days as computed in the sidebar. -/
def trip_days_ui (date_from date_to : PyDate) : ℤ := (date_to.ord - date_from.ord) + 1

/-- The sidebar error banner is shown exactly when trip_days < 1. -/
def date_error_shown (date_from date_to : PyDate) : Bool :=
  decide (trip_days_ui date_from date_to < 1)

/-- Guard on the main block: the pipeline (geocoding, POI search,
enrichment) runs only when the button was pressed and trip_days ≥ 1. -/
def pipeline_invoked (search_button : Bool) (date_from date_to : PyDate) : Bool :=
  search_button && decide (trip_days_ui date_from date_to ≥ 1)

/-! ## Rounding lemmas -/

theorem floor_le_roundHalfEven (x : ℚ) : ⌊x⌋ ≤ roundHalfEven x := by
  simp only [roundHalfEven]
  split_ifs <;> omega

theorem roundHalfEven_le_half (x : ℚ) : (roundHalfEven x : ℚ) ≤ x + 1/2 := by
  have hfl := Int.floor_le x
  simp only [roundHalfEven]
  split_ifs with h1 h2 h3 <;> push_cast <;> linarith

theorem roundHalfEven_le_ceil (x : ℚ) : roundHalfEven x ≤ ⌈x⌉ := by
  have hfc := Int.floor_le_ceil x
  have hfl := Int.floor_le x
  simp only [roundHalfEven]
  split_ifs with h1 h2 h3
  · exact hfc
  · rw [Int.add_one_le_iff, Int.lt_ceil]; linarith
  · exact hfc
  · rw [Int.add_one_le_iff, Int.lt_ceil]; linarith

theorem roundHalfEven_intCast (n : ℤ) : roundHalfEven (n : ℚ) = n := by
  simp only [roundHalfEven, Int.floor_intCast]
  norm_num

theorem roundHalfEven_mono {x y : ℚ} (h : x ≤ y) : roundHalfEven x ≤ roundHalfEven y := by
  rcases le_or_lt (⌈x⌉ : ℤ) ⌊y⌋ with hc | hc
  · exact le_trans (roundHalfEven_le_ceil x) (le_trans hc (floor_le_roundHalfEven y))
  · have hfle : ⌊x⌋ ≤ ⌊y⌋ := Int.floor_le_floor h
    have hceil : ⌈x⌉ ≤ ⌊x⌋ + 1 := Int.ceil_le_floor_add_one x
    have hf : ⌊y⌋ = ⌊x⌋ := by omega
    simp only [roundHalfEven, hf]
    split_ifs <;> first | omega | linarith

theorem round1_intCast (n : ℤ) : round1 ((n : ℚ)) = n := by
  unfold round1
  have h : (10:ℚ) * (n:ℚ) = ((10 * n : ℤ) : ℚ) := by push_cast; ring
  rw [h, roundHalfEven_intCast]
  push_cast
  ring

theorem round1_nonneg {x : ℚ} (hx : 0 ≤ x) : 0 ≤ round1 x := by
  unfold round1
  have h0 : (0:ℤ) ≤ ⌊(10:ℚ) * x⌋ := Int.floor_nonneg.mpr (by positivity)
  have h1 : ⌊(10:ℚ) * x⌋ ≤ roundHalfEven (10 * x) := floor_le_roundHalfEven _
  have h2 : (0:ℚ) ≤ (roundHalfEven (10 * x) : ℚ) := by exact_mod_cast le_trans h0 h1
  positivity

theorem round1_mono {x y : ℚ} (h : x ≤ y) : round1 x ≤ round1 y := by
  unfold round1
  have h1 : roundHalfEven (10 * x) ≤ roundHalfEven (10 * y) :=
    roundHalfEven_mono (by linarith)
  have h2 : (roundHalfEven (10 * x) : ℚ) ≤ (roundHalfEven (10 * y) : ℚ) := by exact_mod_cast h1
  linarith

theorem round1_le_margin (x : ℚ) : round1 x ≤ x + 1/20 := by
  unfold round1
  have h := roundHalfEven_le_half (10 * x)
  linarith

theorem round1_concrete : round1 (1988/100 : ℚ) = 199/10 := by
  unfold round1
  have hx : (10:ℚ) * (1988/100) = 994/5 := by norm_num
  rw [hx]
  have hf : ⌊(994/5 : ℚ)⌋ = 198 := by
    rw [Int.floor_eq_iff]
    norm_num
  simp only [roundHalfEven, hf]
  norm_num

/-! ## Substring lemmas -/

theorem startsWithL_iff : ∀ (p l : List Char), startsWithL p l = true ↔ ∃ t, l = p ++ t
  | [], l => by simp [startsWithL]
  | p :: ps, [] => by simp [startsWithL]
  | p :: ps, c :: cs => by
    simp only [startsWithL, Bool.and_eq_true, beq_iff_eq]
    constructor
    · rintro ⟨rfl, h⟩
      obtain ⟨t, rfl⟩ := (startsWithL_iff ps cs).mp h
      exact ⟨t, rfl⟩
    · rintro ⟨t, ht⟩
      rw [List.cons_append] at ht
      obtain ⟨rfl, rfl⟩ := List.cons.inj ht
      exact ⟨rfl, (startsWithL_iff ps (ps ++ t)).mpr ⟨t, rfl⟩⟩

theorem containsL_iff : ∀ (l p : List Char), containsL p l = true ↔ ∃ a b, l = a ++ p ++ b
  | [], p => by
    simp only [containsL, List.isEmpty_iff]
    constructor
    · rintro rfl; exact ⟨[], [], rfl⟩
    · rintro ⟨a, b, h⟩
      have h2 := List.append_eq_nil.mp h.symm
      exact (List.append_eq_nil.mp h2.1).2
  | c :: cs, p => by
    simp only [containsL, Bool.or_eq_true]
    constructor
    · rintro (h | h)
      · obtain ⟨t, ht⟩ := (startsWithL_iff p (c :: cs)).mp h
        exact ⟨[], t, by simpa using ht⟩
      · obtain ⟨a, b, rfl⟩ := (containsL_iff cs p).mp h
        exact ⟨c :: a, b, rfl⟩
    · rintro ⟨a, b, h⟩
      match a, h with
      | [], h =>
        left
        exact (startsWithL_iff p (c :: cs)).mpr ⟨b, by simpa using h⟩
      | a' :: as, h =>
        right
        rw [List.cons_append, List.cons_append] at h
        obtain ⟨rfl, rfl⟩ := List.cons.inj h
        exact (containsL_iff (as ++ p ++ b) p).mpr ⟨as, b, rfl⟩

theorem containsL_filter (q : Char → Bool) (p l : List Char)
    (hp : p.filter q = p) (h : containsL p l = true) :
    containsL p (l.filter q) = true := by
  obtain ⟨a, b, rfl⟩ := (containsL_iff _ _).mp h
  refine (containsL_iff _ _).mpr ⟨a.filter q, b.filter q, ?_⟩
  simp [List.filter_append, hp]

/-- Substring containment survives the slug normalization when the pattern
has no space and no hyphen and is already lowercase. -/
theorem strContains_resortSlug (name pat : String)
    (hsp : pat.toList.filter (fun a => !(a == ' ')) = pat.toList)
    (hdash : pat.toList.filter (fun a => !(a == '-')) = pat.toList)
    (h : strContains (pyLower name) pat = true) :
    strContains (resortSlug name) pat = true := by
  unfold strContains at h ⊢
  unfold resortSlug removeCharStr
  unfold pyLower at h
  simp only [String.toList] at h ⊢
  exact containsL_filter _ _ _ hdash (containsL_filter _ _ _ hsp h)

/-- If some table key is contained in the slug and the table holds that
key, firstMatch finds an entry. -/
theorem firstMatch_isSome : ∀ (tbl : List (String × String)) (slug k u : String),
    (k, u) ∈ tbl → strContains slug k = true → (firstMatch slug tbl).isSome = true
  | [], slug, k, u => by simp
  | (k1, u1) :: rest, slug, k, u => by
    intro hmem hc
    simp only [firstMatch]
    split
    · rfl
    · rename_i hneg
      rcases List.mem_cons.mp hmem with heq | hmem
      · cases heq
        simp [hc] at hneg
      · exact firstMatch_isSome rest slug k u hmem hc

/-! ## Sorting lemmas -/

theorem mem_insertByDistance {x a : Resort} :
    ∀ l, a ∈ insertByDistance x l ↔ a = x ∨ a ∈ l
  | [] => by simp [insertByDistance]
  | y :: ys => by
    simp only [insertByDistance]
    split
    · simp only [List.mem_cons, mem_insertByDistance ys]
      tauto
    · simp only [List.mem_cons]

theorem insertByDistance_perm (x : Resort) :
    ∀ l, (insertByDistance x l).Perm (x :: l)
  | [] => List.Perm.refl _
  | y :: ys => by
    simp only [insertByDistance]
    split
    · exact ((insertByDistance_perm x ys).cons y).trans (List.Perm.swap x y ys)
    · exact List.Perm.refl _

theorem sortByDistance_perm (rs : List Resort) : (sortByDistance rs).Perm rs := by
  suffices h : ∀ (l acc : List Resort),
      (l.foldl (fun acc x => insertByDistance x acc) acc).Perm (acc ++ l) by
    simpa [sortByDistance] using h rs []
  intro l
  induction l with
  | nil => intro acc; simp
  | cons x xs ih =>
    intro acc
    simp only [List.foldl_cons]
    refine (ih (insertByDistance x acc)).trans ?_
    refine ((insertByDistance_perm x acc).append_right xs).trans ?_
    exact List.perm_middle.symm

theorem pairwise_insertByDistance {x : Resort} :
    ∀ {l}, l.Pairwise (fun a b => a.distance ≤ b.distance) →
      (insertByDistance x l).Pairwise (fun a b => a.distance ≤ b.distance)
  | [], _ => by simp [insertByDistance]
  | y :: ys, h => by
    rcases List.pairwise_cons.mp h with ⟨hy, hys⟩
    simp only [insertByDistance]
    split
    · rename_i hle
      refine List.pairwise_cons.mpr ⟨?_, pairwise_insertByDistance hys⟩
      intro b hb
      rcases (mem_insertByDistance _).mp hb with rfl | hb
      · exact hle
      · exact hy b hb
    · rename_i hgt
      refine List.pairwise_cons.mpr ⟨?_, h⟩
      intro b hb
      rcases List.mem_cons.mp hb with rfl | hb
      · exact le_of_not_le hgt
      · exact le_trans (le_of_not_le hgt) (hy b hb)

theorem sortByDistance_pairwise (rs : List Resort) :
    (sortByDistance rs).Pairwise (fun a b => a.distance ≤ b.distance) := by
  suffices h : ∀ (l acc : List Resort),
      acc.Pairwise (fun a b => a.distance ≤ b.distance) →
      (l.foldl (fun acc x => insertByDistance x acc) acc).Pairwise
        (fun a b => a.distance ≤ b.distance) by
    exact h rs [] (by simp)
  intro l
  induction l with
  | nil => intro acc hacc; simpa using hacc
  | cons x xs ih =>
    intro acc hacc
    exact ih _ (pairwise_insertByDistance hacc)

theorem sortByDistance_eq_nil_iff (rs : List Resort) :
    sortByDistance rs = [] ↔ rs = [] := by
  constructor
  · intro h
    have hlen := (sortByDistance_perm rs).length_eq
    rw [h] at hlen
    exact List.length_eq_zero.mp (by simpa using hlen.symm)
  · rintro rfl; rfl

/-! ## collectResorts lemmas -/

theorem collectResorts_mem_distance (dist : DistFn) (lat lon r : ℚ) :
    ∀ (elems : List OSMElement) (seen : List String) (res : Resort),
      res ∈ collectResorts dist lat lon r elems seen →
      ∃ c : ℚ × ℚ, dist (lat, lon) c ≤ r ∧ res.distance = round1 (dist (lat, lon) c)
  | [], seen, res => by simp [collectResorts]
  | e :: rest, seen, res => by
    intro h
    simp only [collectResorts] at h
    split at h
    · exact collectResorts_mem_distance dist lat lon r rest seen res h
    · split at h
      · exact collectResorts_mem_distance dist lat lon r rest seen res h
      · split at h
        · exact collectResorts_mem_distance dist lat lon r rest seen res h
        · split at h
          · exact collectResorts_mem_distance dist lat lon r rest seen res h
          · rename_i c hc
            split at h
            · rename_i hle
              rcases List.mem_cons.mp h with rfl | h2
              · exact ⟨c, hle, rfl⟩
              · exact collectResorts_mem_distance dist lat lon r rest _ res h2
            · exact collectResorts_mem_distance dist lat lon r rest seen res h

theorem collectResorts_names (dist : DistFn) (lat lon r : ℚ) :
    ∀ (elems : List OSMElement) (seen : List String),
      ((collectResorts dist lat lon r elems seen).map Resort.name).Nodup ∧
      ∀ res ∈ collectResorts dist lat lon r elems seen, res.name ∉ seen
  | [], seen => by simp [collectResorts]
  | e :: rest, seen => by
    simp only [collectResorts]
    split
    · exact collectResorts_names dist lat lon r rest seen
    · rename_i h0
      split
      · exact collectResorts_names dist lat lon r rest seen
      · split
        · exact collectResorts_names dist lat lon r rest seen
        · split
          · exact collectResorts_names dist lat lon r rest seen
          · rename_i c hc
            split
            · obtain ⟨ih1, ih2⟩ := collectResorts_names dist lat lon r rest (e.name :: seen)
              have hnotseen : e.name ∉ seen := by
                intro hmem
                exact h0 (by simp [hmem])
              constructor
              · simp only [List.map_cons, List.nodup_cons]
                refine ⟨?_, ih1⟩
                intro hmem
                obtain ⟨res, hres, hname_eq⟩ := List.mem_map.mp hmem
                exact ih2 res hres (hname_eq ▸ List.mem_cons_self _ _)
              · intro res hres
                rcases List.mem_cons.mp hres with rfl | hres2
                · exact hnotseen
                · intro hmem
                  exact ih2 res hres2 (List.mem_cons_of_mem _ hmem)
            · exact collectResorts_names dist lat lon r rest seen

/-! ## Membership through the fallback table and the finder -/

theorem tahoe_fallback_mem (dist : DistFn) (lat lon r : ℚ) (res : Resort)
    (h : res ∈ get_tahoe_fallback_resorts dist lat lon r) :
    ∃ c : ℚ × ℚ, dist (lat, lon) c ≤ r ∧ res.distance = round1 (dist (lat, lon) c) := by
  unfold get_tahoe_fallback_resorts at h
  have h2 := (sortByDistance_perm _).mem_iff.mp h
  obtain ⟨kr, hkr, hf⟩ := List.mem_filterMap.mp h2
  dsimp only at hf
  split at hf
  · rename_i hle
    injection hf with hf2
    subst hf2
    exact ⟨(kr.lat, kr.lon), hle, rfl⟩
  · exact absurd hf (by simp)

theorem find_mem_distance (dist : DistFn) (loc : String)
    (resp : Option OverpassResponse) (lat lon r : ℚ) (res : Resort)
    (h : res ∈ find_ski_resorts_osm dist loc resp lat lon r) :
    ∃ c : ℚ × ℚ, dist (lat, lon) c ≤ r ∧ res.distance = round1 (dist (lat, lon) c) := by
  cases resp with
  | none =>
    simp only [find_ski_resorts_osm] at h
    split at h
    · exact tahoe_fallback_mem dist lat lon r res h
    · simp at h
  | some resp =>
    simp only [find_ski_resorts_osm] at h
    split at h
    · split at h
      · exact collectResorts_mem_distance dist lat lon r resp.elements [] res
          ((sortByDistance_perm _).mem_iff.mp h)
      · split at h
        · exact tahoe_fallback_mem dist lat lon r res h
        · simp at h
    · split at h
      · simp [sortByDistance] at h
      · split at h
        · exact tahoe_fallback_mem dist lat lon r res h
        · simp at h

/-- C3: the estimated total cost equals
(base_ticket_price + rental_price_if_requested) * trip_days + lesson_price_if_requested
with base_ticket_price 150, rental 50 per day, lesson flat 200; in
particular a one-day trip with no add-ons costs 150 and a two-day trip
with rental and no lesson costs 400. -/
theorem booking_estimated_total_formula :
    ∀ (n w : String) (d1 d2 : PyDate) (l r : Bool),
      ((generate_booking_urls n w d1 d2 l r).estimated_total
          = "~$" ++ toString ((150 + (if r then (50:ℤ) else 0)) * ((d2.ord - d1.ord) + 1)
              + (if l then (200:ℤ) else 0)) ∧
        (generate_booking_urls n w d1 d2 l r).trip_days = (d2.ord - d1.ord) + 1) ∧
      (generate_booking_urls "Zeta" "" ⟨0, "2025-01-01"⟩ ⟨0, "2025-01-01"⟩ false
          false).estimated_total = "~$150" ∧
      (generate_booking_urls "Zeta" "" ⟨0, "2025-01-01"⟩ ⟨1, "2025-01-02"⟩ false
          true).estimated_total = "~$400" := by
  intro n w d1 d2 l r
  exact ⟨⟨rfl, rfl⟩, rfl, rfl⟩

/-- C4: the Booking URL Generator is deterministic in its six inputs; the
embedding is a total function of exactly these inputs, with no other state. -/
theorem booking_urls_deterministic
    (n1 n2 w1 w2 : String) (f1 f2 t1 t2 : PyDate) (l1 l2 r1 r2 : Bool)
    (hn : n1 = n2) (hw : w1 = w2) (hf : f1 = f2) (ht : t1 = t2)
    (hl : l1 = l2) (hr : r1 = r2) :
    generate_booking_urls n1 w1 f1 t1 l1 r1 = generate_booking_urls n2 w2 f2 t2 l2 r2 := by
  subst hn; subst hw; subst hf; subst ht; subst hl; subst hr; rfl

/-- Witness for C4 at a concrete input. -/
theorem booking_urls_deterministic_witness :
    generate_booking_urls "Heavenly" "" ⟨0, "2025-01-01"⟩ ⟨1, "2025-01-02"⟩ true false
      = generate_booking_urls "Heavenly" "" ⟨0, "2025-01-01"⟩ ⟨1, "2025-01-02"⟩ true false :=
  booking_urls_deterministic "Heavenly" "Heavenly" "" "" ⟨0, "2025-01-01"⟩ ⟨0, "2025-01-01"⟩
    ⟨1, "2025-01-02"⟩ ⟨1, "2025-01-02"⟩ true true false false rfl rfl rfl rfl rfl rfl

/-- C7: the weather lookup returns the first forecast period rendering, or
the unavailable marker on any failure of either upstream step, a missing
field, or an empty period list; the function is total, so it never raises. -/
theorem weather_first_period_or_unavailable (env : WeatherEnv) (lat lon : ℚ) :
    (∃ url p rest, env.pointForecast (lat, lon) = some url ∧
        env.forecastPeriods url = some (p :: rest) ∧
        get_weather_forecast env lat lon
          = toString p.temperature ++ "°F – " ++ p.shortForecast) ∨
    get_weather_forecast env lat lon = "Weather unavailable" := by
  unfold get_weather_forecast
  rcases h1 : env.pointForecast (lat, lon) with _ | url
  · right; rfl
  · dsimp only
    rcases h2 : env.forecastPeriods url with _ | ps
    · right; rfl
    · cases ps with
      | nil => right; rfl
      | cons p rest =>
        left
        exact ⟨url, p, rest, rfl, h2, rfl⟩

/-- C8: when the end date is before the start date the sidebar error is
shown and the pipeline guard evaluates to false regardless of the button. -/
theorem invalid_dates_block_pipeline (d1 d2 : PyDate) (h : d2.ord < d1.ord) (b : Bool) :
    date_error_shown d1 d2 = true ∧ pipeline_invoked b d1 d2 = false := by
  have hlt : trip_days_ui d1 d2 < 1 := by unfold trip_days_ui; omega
  constructor
  · simp [date_error_shown, hlt]
  · have : ¬ trip_days_ui d1 d2 ≥ 1 := by omega
    simp [pipeline_invoked, this]

/-- Witness for C8 at a concrete pair of dates. -/
theorem invalid_dates_block_pipeline_witness :
    date_error_shown ⟨5, "2025-01-05"⟩ ⟨3, "2025-01-03"⟩ = true ∧
    pipeline_invoked true ⟨5, "2025-01-05"⟩ ⟨3, "2025-01-03"⟩ = false :=
  invalid_dates_block_pipeline ⟨5, "2025-01-05"⟩ ⟨3, "2025-01-03"⟩ (by decide) true

/-- The fallback table output is sorted: it is a sortByDistance image. -/
theorem tahoe_fallback_pairwise (dist : DistFn) (lat lon r : ℚ) :
    (get_tahoe_fallback_resorts dist lat lon r).Pairwise
      (fun a b => a.distance ≤ b.distance) := by
  unfold get_tahoe_fallback_resorts
  exact sortByDistance_pairwise _

/-- C9: every resort list returned by the finder, on the live path and on
the fallback path, is sorted ascending by the stored distance field. -/
theorem poi_results_sorted_by_distance (dist : DistFn) (loc : String)
    (resp : Option OverpassResponse) (lat lon r : ℚ) :
    (find_ski_resorts_osm dist loc resp lat lon r).Pairwise
      (fun a b => a.distance ≤ b.distance) ∧
    (get_tahoe_fallback_resorts dist lat lon r).Pairwise
      (fun a b => a.distance ≤ b.distance) := by
  refine ⟨?_, tahoe_fallback_pairwise dist lat lon r⟩
  cases resp with
  | none =>
    simp only [find_ski_resorts_osm]
    split
    · exact tahoe_fallback_pairwise dist lat lon r
    · simp
  | some resp =>
    simp only [find_ski_resorts_osm]
    split
    · split
      · exact sortByDistance_pairwise _
      · split
        · exact tahoe_fallback_pairwise dist lat lon r
        · simp
    · split
      · exact sortByDistance_pairwise _
      · split
        · exact tahoe_fallback_pairwise dist lat lon r
        · simp

/-- Helper: concrete evaluation of the element loop on one element within
radius. -/
theorem collect_single_eval (dist : DistFn) (r : ℚ)
    (e : OSMElement) (cname : String) (cc : ℚ × ℚ)
    (hname : e.name = cname)
    (hne : (cname == "") = false)
    (hkw : (exclude_keywords.any fun k => strContains (pyLower cname) k) = false)
    (ham : ((e.amenity == some "ski_school" || e.amenity == some "ski_rental")
        && !e.hasLeisure) = false)
    (hco : e.coords = some cc)
    (hle : dist (0, 0) cc ≤ r) :
    collectResorts dist 0 0 r [e] []
      = [⟨cname, cc.1, cc.2, round1 (dist (0, 0) cc), e.website, e.phone,
          "OpenStreetMap"⟩] := by
  subst hname
  simp only [collectResorts, hco, hne, hkw, ham, Bool.false_eq_true,
    if_false, if_pos hle]
  simp [List.contains]

/-- Helper: an element whose coordinates lie beyond the radius is skipped
and, in particular, its name does not enter the seen set. -/
theorem collect_skip_far (dist : DistFn) (r : ℚ) (e : OSMElement)
    (rest : List OSMElement) (seen : List String) (cc : ℚ × ℚ)
    (hco : e.coords = some cc) (hfar : ¬ dist (0, 0) cc ≤ r) :
    collectResorts dist 0 0 r (e :: rest) seen = collectResorts dist 0 0 r rest seen := by
  simp only [collectResorts, hco]
  simp
  intro _ _ _ _ hle
  exact absurd hle (by simpa using hfar)

/-- Helper: the finder on a 200 response returns the sorted collected list
when that list is non-empty. -/
theorem find_eval_of_collect (dist : DistFn) (loc : String) (r : ℚ)
    (elems : List OSMElement) (rs : List Resort)
    (hcol : collectResorts dist 0 0 r elems [] = rs) (hne : rs ≠ []) :
    find_ski_resorts_osm dist loc (some ⟨200, elems⟩) 0 0 r = sortByDistance rs := by
  have hie : rs.isEmpty = false := by
    cases rs with
    | nil => exact absurd rfl hne
    | cons a l => rfl
  simp only [find_ski_resorts_osm]
  simp [hcol, hie]

/-- C1 counterexample: with radius 19.88 miles and a feature at exactly
19.88 miles, the stored distance field is round(19.88, 1) = 19.9, which
exceeds the requested radius. -/
theorem poi_distance_exceeds_radius :
    (find_ski_resorts_osm (fun _ _ => 1988/100) ""
        (some ⟨200, [⟨"Zeta", none, false, some (0, 0), "", ""⟩]⟩) 0 0 (1988/100)).map
        Resort.distance = [199/10] ∧ ¬ ((199:ℚ)/10 ≤ 1988/100) := by
  constructor
  · have hcol := collect_single_eval (fun _ _ => (1988:ℚ)/100) (1988/100)
      ⟨"Zeta", none, false, some (0, 0), "", ""⟩ "Zeta" (0, 0) rfl
      (by decide) (by decide) (by decide) rfl (by norm_num)
    rw [find_eval_of_collect _ _ _ _ _ hcol (by simp)]
    simp [sortByDistance, insertByDistance, round1_concrete]
  · norm_num

/-- C1 amended: every returned distance field is non-negative, at most the
radius rounded to one decimal, and at most radius + 1/20; the pre-rounding
distance is filtered against the radius, the stored field is its one-decimal
rounding. -/
theorem poi_distance_bounds (dist : DistFn) (hdist : ∀ p q, 0 ≤ dist p q)
    (loc : String) (resp : Option OverpassResponse) (lat lon r : ℚ) (res : Resort)
    (hres : res ∈ find_ski_resorts_osm dist loc resp lat lon r ∨
            res ∈ get_tahoe_fallback_resorts dist lat lon r) :
    0 ≤ res.distance ∧ res.distance ≤ round1 r ∧ res.distance ≤ r + 1/20 := by
  have key : ∃ c : ℚ × ℚ, dist (lat, lon) c ≤ r ∧
      res.distance = round1 (dist (lat, lon) c) := by
    rcases hres with h | h
    · exact find_mem_distance dist loc resp lat lon r res h
    · exact tahoe_fallback_mem dist lat lon r res h
  obtain ⟨c, hle, hd⟩ := key
  rw [hd]
  refine ⟨round1_nonneg (hdist _ _), round1_mono hle, ?_⟩
  have := round1_le_margin (dist (lat, lon) c)
  linarith

/-- Witness for C1 amended at a concrete resort of the live path. -/
theorem poi_distance_bounds_witness :
    (0:ℚ) ≤ (Resort.mk "Zeta" 0 0 (round1 1) "" "" "OpenStreetMap").distance := by
  refine (poi_distance_bounds (fun _ _ => 1) (fun _ _ => by norm_num) ""
    (some ⟨200, [⟨"Zeta", none, false, some (0, 0), "", ""⟩]⟩) 0 0 5
    ⟨"Zeta", 0, 0, round1 1, "", "", "OpenStreetMap"⟩ (Or.inl ?_)).1
  have hcol := collect_single_eval (fun _ _ => (1:ℚ)) 5
    ⟨"Zeta", none, false, some (0, 0), "", ""⟩ "Zeta" (0, 0) rfl
    (by decide) (by decide) (by decide) rfl (by norm_num)
  rw [find_eval_of_collect _ _ _ _ _ hcol (by simp)]
  simp [sortByDistance, insertByDistance]

/-- C2 counterexample: two features share the exact name Zeta; the first
is beyond the radius and discarded without entering the seen set, so the
later feature with the same name (website w2) is kept, not discarded. -/
theorem poi_dedup_keeps_later_feature :
    (find_ski_resorts_osm (fun _ c => if c.1 = 0 then (30:ℚ) else 5) ""
        (some ⟨200, [⟨"Zeta", none, false, some (0, 0), "", ""⟩,
                     ⟨"Zeta", none, false, some (1, 0), "w2", ""⟩]⟩) 0 0 20).map
        (fun res => (res.name, res.website)) = [("Zeta", "w2")] := by
  have hcol : collectResorts (fun _ c => if c.1 = 0 then (30:ℚ) else 5) 0 0 20
      [⟨"Zeta", none, false, some (0, 0), "", ""⟩,
       ⟨"Zeta", none, false, some (1, 0), "w2", ""⟩] []
      = [⟨"Zeta", 1, 0, round1 (if (1:ℚ) = 0 then (30:ℚ) else 5), "w2", "",
          "OpenStreetMap"⟩] := by
    refine (collect_skip_far _ 20 _ _ [] (0, 0) rfl (by norm_num)).trans ?_
    exact collect_single_eval _ 20 _ "Zeta" (1, 0) rfl
      (by decide) (by decide) (by decide) rfl (by norm_num)
  rw [find_eval_of_collect _ _ _ _ _ hcol (by simp)]
  simp [sortByDistance, insertByDistance]

/-- C2 amended: within one run of the element loop, the kept names are
pairwise distinct and never repeat a name already in the seen set: at most
one resort per exact name is kept, namely for the first feature with that
name that passes every filter; a later same-name feature is kept only when
all earlier ones were filtered out. -/
theorem poi_dedup_names (dist : DistFn) (lat lon r : ℚ)
    (elems : List OSMElement) (seen : List String) :
    ((collectResorts dist lat lon r elems seen).map Resort.name).Nodup ∧
    (collectResorts dist lat lon r elems seen).all
      (fun res => !(seen.contains res.name)) = true := by
  obtain ⟨h1, h2⟩ := collectResorts_names dist lat lon r elems seen
  refine ⟨h1, ?_⟩
  rw [List.all_eq_true]
  intro res hres
  have hn := h2 res hres
  simpa [List.contains] using hn

/-- C5: the lift-ticket URL follows the three-tier rule over the slug
(lowercase, spaces and hyphens removed): the first known-pattern entry
whose key is a substring of the slug wins; with no match and a non-empty
website the URL is built on the website; with no match and no website a
web-search URL is produced; and any name whose lowercase form contains
heavenly always hits a known-pattern entry. -/
theorem booking_three_tier_selection (name website : String) (d1 d2 : PyDate) (l r : Bool) :
    ((firstMatch (resortSlug name) (known_patterns d1.ymd d2.ymd)).isSome = false →
        website ≠ "" →
        (generate_booking_urls name website d1 d2 l r).lift_ticket_link
          = rstripSlash website ++ "/plan-your-trip/lift-access/tickets?startDate="
              ++ d1.ymd ++ "&endDate=" ++ d2.ymd) ∧
    ((firstMatch (resortSlug name) (known_patterns d1.ymd d2.ymd)).isSome = false →
        website = "" →
        (generate_booking_urls name website d1 d2 l r).lift_ticket_link
          = "https://www.google.com/search?q=" ++ replaceCharStr ' ' '+' name
              ++ "+lift+tickets+" ++ d1.ymd ++ "+to+" ++ d2.ymd) ∧
    (∀ u, firstMatch (resortSlug name) (known_patterns d1.ymd d2.ymd) = some u →
        (generate_booking_urls name website d1 d2 l r).lift_ticket_link = u) ∧
    (strContains (pyLower name) "heavenly" = true →
        (firstMatch (resortSlug name) (known_patterns d1.ymd d2.ymd)).isSome = true) := by
  have hlink : (generate_booking_urls name website d1 d2 l r).lift_ticket_link
      = lift_ticket_url name website d1.ymd d2.ymd := rfl
  refine ⟨?_, ?_, ?_, ?_⟩
  · intro hm hw
    rw [hlink]
    unfold lift_ticket_url
    split
    · rename_i u heq
      rw [heq] at hm
      simp at hm
    · rw [if_pos hw]
  · intro hm hw
    rw [hlink]
    unfold lift_ticket_url
    split
    · rename_i u heq
      rw [heq] at hm
      simp at hm
    · rw [if_neg (by simp [hw])]
  · intro u hu
    rw [hlink]
    unfold lift_ticket_url
    split
    · rename_i u2 heq
      rw [heq] at hu
      exact Option.some.inj hu
    · rename_i heq
      rw [heq] at hu
      exact absurd hu (by simp)
  · intro hc
    have hslug := strContains_resortSlug name "heavenly" (by decide) (by decide) hc
    have hmem : ("heavenly",
        "https://www.skiheavenly.com/plan-your-trip/lift-access/tickets.aspx?startDate="
          ++ d1.ymd ++ "&endDate=" ++ d2.ymd) ∈ known_patterns d1.ymd d2.ymd := by
      unfold known_patterns
      exact List.mem_cons_of_mem _ (List.mem_cons_self _ _)
    exact firstMatch_isSome _ _ _ _ hmem hslug

/-- Witness for C5: the name heavenly itself selects a known pattern. -/
theorem booking_three_tier_selection_witness :
    (firstMatch (resortSlug "heavenly")
      (known_patterns "2025-01-01" "2025-01-02")).isSome = true :=
  (booking_three_tier_selection "heavenly" "" ⟨0, "2025-01-01"⟩ ⟨1, "2025-01-02"⟩
    false false).2.2.2 (by decide)

/-- C6 counterexample: the scorer has zero input posts on every call (the
sample count is always 0), yet for the name Heavenly it returns score 1/5
and positive-percentage 80, not the neutral default (0.0, 50, 0). -/
theorem sentiment_not_neutral_with_zero_posts :
    (get_reddit_sentiment true "Heavenly").count = 0 ∧
    (get_reddit_sentiment true "Heavenly").score = 1/5 ∧
    (get_reddit_sentiment true "Heavenly").pos_pct = 80 ∧
    ¬ ((1:ℚ)/5 = 0 ∧ (80:ℤ) = 50) := by
  have hm : firstRepMatch (pyLower "Heavenly") reputation_map
      = some ("heavenly", 0.20) := rfl
  have h80 : roundHalfEven ((80:ℚ)) = 80 := by
    have he : ((80:ℚ)) = ((80:ℤ):ℚ) := by norm_num
    rw [he, roundHalfEven_intCast]
  refine ⟨rfl, ?_, ?_, by norm_num⟩
  · simp only [get_reddit_sentiment, hm]
    norm_num
  · simp only [get_reddit_sentiment, hm]
    norm_num [min_def, max_def, h80]

/-- C6 amended: the scorer never consumes posts (count always 0); it
returns the neutral default (0.0, 50, 0) when the analyzer is unavailable
and when the name matches neither the reputation table nor any
resort-like keyword; on a match it returns that non-neutral score with
count 0. -/
theorem sentiment_neutral_default (name : String)
    (h1 : firstRepMatch (pyLower name) reputation_map = none)
    (h2 : (resort_words1.any fun w => strContains (pyLower name) w) = false)
    (h3 : (resort_words2.any fun w => strContains (pyLower name) w) = false) :
    (∀ avail : Bool, (get_reddit_sentiment avail name).count = 0) ∧
    get_reddit_sentiment false name = ⟨0, 50, 0, "VADER not available"⟩ ∧
    get_reddit_sentiment true name = ⟨0, 50, 0, "✓ General resort score"⟩ := by
  have h50 : roundHalfEven ((50:ℚ)) = 50 := by
    have he : ((50:ℚ)) = ((50:ℤ):ℚ) := by norm_num
    rw [he, roundHalfEven_intCast]
  refine ⟨?_, rfl, ?_⟩
  · intro avail
    cases avail
    · rfl
    · rfl
  · simp only [get_reddit_sentiment, h1, h2, h3]
    norm_num [min_def, max_def, h50]

/-- Witness for C6 amended at a name matching nothing. -/
theorem sentiment_neutral_default_witness :
    get_reddit_sentiment true "Zzz" = ⟨0, 50, 0, "✓ General resort score"⟩ :=
  (sentiment_neutral_default "Zzz" rfl (by decide) (by decide)).2.2

/-- C10: the finder depends on the hidden session location: on a raised
exception or an empty live result the output is the fallback table exactly
when the session location contains tahoe, a successful non-empty live
result ignores the session state, and two calls with identical
(lat, lon, radius) but different session locations return different
results. -/
theorem poi_hidden_session_state (dist : DistFn) (loc : String) (lat lon r : ℚ) :
    (find_ski_resorts_osm dist loc none lat lon r
        = if strContains (pyLower loc) "tahoe" = true
          then get_tahoe_fallback_resorts dist lat lon r else []) ∧
    (∀ resp : OverpassResponse,
        (if resp.statusCode == 200 then collectResorts dist lat lon r resp.elements []
         else []) = [] →
        find_ski_resorts_osm dist loc (some resp) lat lon r
          = if strContains (pyLower loc) "tahoe" = true
            then get_tahoe_fallback_resorts dist lat lon r else []) ∧
    (∀ resp : OverpassResponse,
        resp.statusCode = 200 →
        collectResorts dist lat lon r resp.elements [] ≠ [] →
        find_ski_resorts_osm dist loc (some resp) lat lon r
          = sortByDistance (collectResorts dist lat lon r resp.elements [])) ∧
    find_ski_resorts_osm (fun _ _ => 0) "Lake Tahoe, CA" none 0 0 10
      ≠ find_ski_resorts_osm (fun _ _ => 0) "Reno, NV" none 0 0 10 := by
  refine ⟨rfl, ?_, ?_, ?_⟩
  · intro resp hempty
    simp only [find_ski_resorts_osm, hempty]
    rfl
  · intro resp h200 hne
    have hie : (collectResorts dist lat lon r resp.elements []).isEmpty = false := by
      cases hh : collectResorts dist lat lon r resp.elements [] with
      | nil => exact absurd hh hne
      | cons a l => rfl
    have hbeq : (resp.statusCode == 200) = true := by simp [h200]
    simp only [find_ski_resorts_osm, hbeq, if_true, hie]
    rfl
  · have h1 : find_ski_resorts_osm (fun _ _ => 0) "Lake Tahoe, CA" none 0 0 10
        = get_tahoe_fallback_resorts (fun _ _ => 0) 0 0 10 := by
      simp only [find_ski_resorts_osm]
      rw [if_pos (by decide)]
    have h2 : find_ski_resorts_osm (fun _ _ => 0) "Reno, NV" none 0 0 10 = [] := by
      simp only [find_ski_resorts_osm]
      rw [if_neg (by decide)]
    rw [h1, h2]
    intro hnil
    have hfm : (Resort.mk "Palisades Tahoe" 39.1970 (-120.2356) (round1 0)
        "https://www.palisadestahoe.com" "" "Fallback Database")
        ∈ tahoe_known_resorts.filterMap (fun kr =>
          let d := (fun (_ _ : ℚ × ℚ) => (0:ℚ)) (0, 0) (kr.lat, kr.lon)
          if d ≤ 10 then
            some { name := kr.name, lat := kr.lat, lon := kr.lon, distance := round1 d,
                   website := kr.website, phone := "", source := "Fallback Database" }
          else none) := by
      refine List.mem_filterMap.mpr ⟨⟨"Palisades Tahoe", 39.1970, -120.2356,
        "https://www.palisadestahoe.com"⟩, ?_, ?_⟩
      · unfold tahoe_known_resorts
        exact List.mem_cons_self _ _
      · rw [if_pos (by norm_num)]
    rw [get_tahoe_fallback_resorts] at hnil
    have := (sortByDistance_eq_nil_iff _).mp hnil
    rw [this] at hfm
    exact List.not_mem_nil _ hfm

/-- Witness for C10: a failed response with a tahoe session location takes
the fallback branch. -/
theorem poi_hidden_session_state_witness :
    find_ski_resorts_osm (fun _ _ => 0) "Lake Tahoe, CA" (some ⟨404, []⟩) 0 0 10
      = (if strContains (pyLower "Lake Tahoe, CA") "tahoe" = true
         then get_tahoe_fallback_resorts (fun _ _ => 0) 0 0 10 else []) :=
  (poi_hidden_session_state (fun _ _ => 0) "Lake Tahoe, CA" 0 0 10).2.1 ⟨404, []⟩ (by decide)
